import Mathlib

/-!
Shallow embedding of the thermal-simulation repository
(src/transferencia_calor.py, src/corpo_termico.py, src/simulador.py).

Real-number quantities of the Python code are embedded as rationals (ℚ),
so all arithmetic identities are exact.  Python's fallible operations
(float division by zero raising ZeroDivisionError, `raise ValueError`)
are embedded as `Except String`.  Numpy arrays indexed by `int` are
embedded as functions `ℕ → ℚ` (for the per-step working vectors) and as
`List`s (for the stored configuration).
-/

/-- Embeds `taxa_conveccao` from src/transferencia_calor.py:
Q̇ = h·A·(T_corpo − T_ambiente). -/
def taxa_conveccao (h area T_corpo T_ambiente : ℚ) : ℚ :=
  h * area * (T_corpo - T_ambiente)

/-- Embeds `taxa_conducao` from src/transferencia_calor.py:
Q̇ = k·A·(T1 − T2) / espessura.  (In ℚ, division by zero yields 0; the
Python float division would raise, but every claim instantiates a
nonzero thickness.) -/
def taxa_conducao (k area espessura T1 T2 : ℚ) : ℚ :=
  k * area * (T1 - T2) / espessura

/-- Embeds `calcular_delta_Q` from src/transferencia_calor.py: ΔQ = Q̇·Δt. -/
def calcular_delta_Q (taxa_transferencia delta_t : ℚ) : ℚ :=
  taxa_transferencia * delta_t

/-- Embeds the `CorpoTermico` object state from src/corpo_termico.py. -/
structure CorpoTermico where
  nome : String
  massa : ℚ
  calor_especifico : ℚ
  area_superficie : ℚ
  temperatura : ℚ
  historico_temperatura : List ℚ
  historico_tempo : List ℚ
deriving DecidableEq

/-- Embeds `CorpoTermico.__init__`: stores the five parameters unchecked
(the constructor performs no validation in the code) and seeds both
histories, `historico_temperatura = [temperatura_inicial]` and
`historico_tempo = [0]`. -/
def CorpoTermico.init (nome : String) (massa calor_especifico area_superficie
    temperatura_inicial : ℚ) : CorpoTermico :=
  { nome := nome
    massa := massa
    calor_especifico := calor_especifico
    area_superficie := area_superficie
    temperatura := temperatura_inicial
    historico_temperatura := [temperatura_inicial]
    historico_tempo := [0] }

/-- Default body used as the junk value for out-of-range list indexing. -/
def corpoPadrao : CorpoTermico := CorpoTermico.init "" 0 0 0 0

instance : Inhabited CorpoTermico := ⟨corpoPadrao⟩

/-- Embeds `CorpoTermico.capacidade_termica`: C = m·c. -/
def CorpoTermico.capacidade_termica (c : CorpoTermico) : ℚ :=
  c.massa * c.calor_especifico

/-- Embeds `CorpoTermico.atualizar_temperatura`: ΔT = ΔQ / (m·c), added to
the current temperature.  The `delta_t` argument is accepted and unused,
exactly as in the code.  (In ℚ, division by a zero capacity yields 0;
Python would raise ZeroDivisionError there — see the C6 analysis.) -/
def CorpoTermico.atualizar_temperatura (c : CorpoTermico) (delta_Q _delta_t : ℚ) :
    CorpoTermico :=
  { c with temperatura := c.temperatura + delta_Q / c.capacidade_termica }

/-- Embeds `CorpoTermico.registrar_estado`: appends the current temperature
and the given time to the two histories. -/
def CorpoTermico.registrar_estado (c : CorpoTermico) (tempo : ℚ) : CorpoTermico :=
  { c with
    historico_temperatura := c.historico_temperatura ++ [c.temperatura]
    historico_tempo := c.historico_tempo ++ [tempo] }

/-- Embeds the `SimuladorTermico` object state from src/simulador.py. -/
structure SimuladorTermico where
  corpos : List CorpoTermico
  temperatura_ambiente : ℚ
  coef_conveccao : ℚ
  delta_t : ℚ
  tempo_atual : ℚ
  matriz_condutancia : Option (List (List ℚ))
  condutancia_ambiente : Option (List ℚ)
deriving DecidableEq

/-- Embeds `SimuladorTermico.__init__(delta_t)`: defaults are ambient 25 °C,
convection coefficient 10, elapsed time 0, no matrix, no per-body vector.
No validation of `delta_t` is performed by the code. -/
def SimuladorTermico.init (delta_t : ℚ) : SimuladorTermico :=
  { corpos := []
    temperatura_ambiente := 25
    coef_conveccao := 10
    delta_t := delta_t
    tempo_atual := 0
    matriz_condutancia := none
    condutancia_ambiente := none }

/-- Embeds `SimuladorTermico.adicionar_corpo`: appends a body. -/
def SimuladorTermico.adicionar_corpo (s : SimuladorTermico) (corpo : CorpoTermico) :
    SimuladorTermico :=
  { s with corpos := s.corpos ++ [corpo] }

/-- Embeds `SimuladorTermico.configurar_ambiente`: sets the ambient
temperature and, when given, the convection coefficient. -/
def SimuladorTermico.configurar_ambiente (s : SimuladorTermico) (temperatura : ℚ)
    (coef_conveccao : Option ℚ) : SimuladorTermico :=
  { s with
    temperatura_ambiente := temperatura
    coef_conveccao := match coef_conveccao with
      | some h => h
      | none => s.coef_conveccao }

/-- Embeds `SimuladorTermico.definir_matriz_condutancia`: raises ValueError
when `matriz.shape[0]` (the row count) differs from the body count,
otherwise stores the matrix.  Column counts are never inspected. -/
def SimuladorTermico.definir_matriz_condutancia (s : SimuladorTermico)
    (matriz : List (List ℚ)) : Except String SimuladorTermico :=
  if s.corpos.length ≠ matriz.length then
    Except.error "Dimensão da matriz não corresponde ao número de corpos"
  else
    Except.ok { s with matriz_condutancia := some matriz }

/-- Embeds `SimuladorTermico.definir_condutancia_ambiente`: raises ValueError
when the vector length differs from the body count, otherwise stores it. -/
def SimuladorTermico.definir_condutancia_ambiente (s : SimuladorTermico)
    (condutancias : List ℚ) : Except String SimuladorTermico :=
  if s.corpos.length ≠ condutancias.length then
    Except.error "Número de condutâncias não corresponde ao número de corpos"
  else
    Except.ok { s with condutancia_ambiente := some condutancias }

/-- Models Python's `int()` applied to a float ratio: truncation toward
zero (`int(2.5) = 2`, `int(-2.5) = -2`). -/
def pyInt (q : ℚ) : ℤ :=
  if 0 ≤ q then ⌊q⌋ else -⌊-q⌋

/-- Embeds `num_passos = int(tempo_total / self.delta_t)` together with the
semantics of `range`: a negative count yields zero iterations. -/
def num_passos (tempo_total delta_t : ℚ) : ℕ :=
  (pyInt (tempo_total / delta_t)).toNat

/-- Embeds `SimuladorTermico.simular_conveccao_ambiente`:
`delta_Q = -calcular_delta_Q(taxa_conveccao(coef, area, T, T_amb), delta_t)`. -/
def SimuladorTermico.simular_conveccao_ambiente (s : SimuladorTermico)
    (corpo : CorpoTermico) : ℚ :=
  -(calcular_delta_Q
      (taxa_conveccao s.coef_conveccao corpo.area_superficie corpo.temperatura
        s.temperatura_ambiente)
      s.delta_t)

/-- Embeds `SimuladorTermico.executar_passo` with the default
`modo='ambiente'`: each body receives its own ambient-convection ΔQ
(computed from its own state only), then elapsed time advances once, then
every body records its state. -/
def SimuladorTermico.executar_passo_ambiente (s : SimuladorTermico) : SimuladorTermico :=
  let corpos1 := s.corpos.map fun c =>
    c.atualizar_temperatura (s.simular_conveccao_ambiente c) s.delta_t
  let tempo1 := s.tempo_atual + s.delta_t
  { s with
    corpos := corpos1.map fun c => c.registrar_estado tempo1
    tempo_atual := tempo1 }

/-- Modelled from the spec: `simular_conducao_entre_corpos` is called by
`SimuladorTermico.executar_passo` in src/simulador.py (conduction mode) but
is not defined anywhere under src/.  Spec §4.4 gives its contract:
rate = conductionRate(k, area, thickness, T_A, T_B);
deltaQ = heatOverStep(rate, Δt); body A gets −deltaQ, body B gets +deltaQ. -/
def SimuladorTermico.simular_conducao_entre_corpos (s : SimuladorTermico)
    (corpo1 corpo2 : CorpoTermico) (k area_contato espessura : ℚ) : ℚ × ℚ :=
  let q := calcular_delta_Q
    (taxa_conducao k area_contato espessura corpo1.temperatura corpo2.temperatura)
    s.delta_t
  (-q, q)

/-- Applies `corpo.atualizar_temperatura(dQ, dt)` to the body stored at
index `i`, embedding Python's in-place mutation of a list member. -/
def atualizarEm (l : List CorpoTermico) (i : ℕ) (dQ dt : ℚ) : List CorpoTermico :=
  match l[i]? with
  | some c => l.set i (c.atualizar_temperatura dQ dt)
  | none => l

/-- Embeds `SimuladorTermico.executar_passo` with `modo='conducao'`, where
the two designated bodies are the engine's bodies at indices `i1` and `i2`:
both ΔQ values are computed first from the bodies' current temperatures,
then applied, then time advances and every body records its state. -/
def SimuladorTermico.executar_passo_conducao (s : SimuladorTermico) (i1 i2 : ℕ)
    (k area_contato espessura : ℚ) : SimuladorTermico :=
  let c1 := s.corpos.getD i1 corpoPadrao
  let c2 := s.corpos.getD i2 corpoPadrao
  let dq := s.simular_conducao_entre_corpos c1 c2 k area_contato espessura
  let corpos1 := atualizarEm (atualizarEm s.corpos i1 dq.1 s.delta_t) i2 dq.2 s.delta_t
  let tempo1 := s.tempo_atual + s.delta_t
  { s with
    corpos := corpos1.map fun c => c.registrar_estado tempo1
    tempo_atual := tempo1 }

/-!
Coupled multi-body mode, `SimuladorTermico.simular_multiplos_corpos`.
The numpy working vectors (`temperaturas`, `delta_Q`, `capacidades`,
`areas`, `coefs_conv`) are embedded as functions `ℕ → ℚ`; the in-place
accumulations `delta_Q[i] += x` become `addAt`.
-/

/-- Embeds `delta_Q[i] += x` on a numpy vector viewed as a function. -/
def addAt (f : ℕ → ℚ) (i : ℕ) (x : ℚ) : ℕ → ℚ :=
  fun j => if j = i then f j + x else f j

/-- Matrix access `G[i, j]` on the stored list-of-rows matrix. -/
def getMC (G : List (List ℚ)) (i j : ℕ) : ℚ :=
  (G.getD i []).getD j 0

/-- The ambient-convection contribution accumulated into `delta_Q[i]`
for one body in one coupled step:
`-calcular_delta_Q(taxa_conveccao(coef, area, T_i, T_amb), delta_t)`. -/
def convTerm (coef area T T_amb dt : ℚ) : ℚ :=
  -(calcular_delta_Q (taxa_conveccao coef area T T_amb) dt)

/-- The convection accumulation pass of a coupled step, folded over a list
of body indices (the code iterates over `range(num_corpos)`). -/
def convFold (l : List ℕ) (coefs areas T : ℕ → ℚ) (T_amb dt : ℚ)
    (dQ : ℕ → ℚ) : ℕ → ℚ :=
  l.foldl (fun f i => addAt f i (convTerm (coefs i) (areas i) (T i) T_amb dt)) dQ

/-- The conduction heat exchanged by the pair `p` in one coupled step:
`calcular_delta_Q(taxa_conducao(G[i,j], 0.1, 0.01, T[i], T[j]), delta_t)`
with the hardcoded contact area 0.1 m² and thickness 0.01 m. -/
def condQ (G : ℕ → ℕ → ℚ) (T : ℕ → ℚ) (dt : ℚ) (p : ℕ × ℕ) : ℚ :=
  calcular_delta_Q (taxa_conducao (G p.1 p.2) (1 / 10) (1 / 100) (T p.1) (T p.2)) dt

/-- One pairwise conduction exchange of a coupled step: when
`G[i, j] > 0`, the same quantity `q` is subtracted at `i` and added at
`j`; otherwise `delta_Q` is untouched. -/
def condPasso (G : ℕ → ℕ → ℚ) (T : ℕ → ℚ) (dt : ℚ) (dQ : ℕ → ℚ)
    (p : ℕ × ℕ) : ℕ → ℚ :=
  if 0 < G p.1 p.2 then
    addAt (addAt dQ p.1 (-(condQ G T dt p))) p.2 (condQ G T dt p)
  else dQ

/-- The conduction accumulation pass of a coupled step, folded over a list
of index pairs. -/
def condFold (l : List (ℕ × ℕ)) (G : ℕ → ℕ → ℚ) (T : ℕ → ℚ) (dt : ℚ)
    (dQ : ℕ → ℚ) : ℕ → ℚ :=
  l.foldl (condPasso G T dt) dQ

/-- The pair list traversed by the nested loops
`for i in range(n): for j in range(i+1, n)`. -/
def pares (n : ℕ) : List (ℕ × ℕ) :=
  (List.range n).flatMap fun i =>
    ((List.range n).filter fun j => decide (i < j)).map fun j => (i, j)

/-- The full `delta_Q` accumulation of one coupled step, with the pass
orders used by the code (`range n`, then `pares n` when a matrix is set). -/
def stepDeltaQ (n : ℕ) (coefs areas : ℕ → ℚ) (T_amb dt : ℚ)
    (mc : Option (List (List ℚ))) (T : ℕ → ℚ) : ℕ → ℚ :=
  let dq1 := convFold (List.range n) coefs areas T T_amb dt fun _ => 0
  match mc with
  | none => dq1
  | some G => condFold (pares n) (getMC G) T dt dq1

/-- The same accumulation as `stepDeltaQ` but folded in caller-chosen
orders over the bodies and over the pairs; used to state that the result
is independent of the iteration order. -/
def stepDeltaQordem (lcorpos : List ℕ) (lpares : List (ℕ × ℕ))
    (coefs areas : ℕ → ℚ) (T_amb dt : ℚ) (mc : Option (List (List ℚ)))
    (T : ℕ → ℚ) : ℕ → ℚ :=
  let dq1 := convFold lcorpos coefs areas T T_amb dt fun _ => 0
  match mc with
  | none => dq1
  | some G => condFold lpares (getMC G) T dt dq1

/-- Fixed data of one coupled simulation, read once before the step loop
(capacities, areas and convection coefficients are captured before the
first step and never recomputed, exactly as in the code). -/
structure ParamsMulti where
  n : ℕ
  coefs : ℕ → ℚ
  areas : ℕ → ℚ
  caps : ℕ → ℚ
  T_amb : ℚ
  dt : ℚ
  mc : Option (List (List ℚ))

/-- Loop-carried state of the coupled step loop: the numpy temperature
vector, the body objects, and the engine's elapsed time. -/
structure EstadoMulti where
  temps : ℕ → ℚ
  corpos : List CorpoTermico
  tempo : ℚ

/-- Embeds the body-object update at the end of a coupled step
(`for i, corpo in enumerate(self.corpos)`): body `i` takes the new
temperature `T i` and records its state at the new elapsed time. -/
def stepCorpos (T : ℕ → ℚ) (tempo : ℚ) : ℕ → List CorpoTermico → List CorpoTermico
  | _, [] => []
  | i, c :: resto =>
    ({ c with temperatura := T i } : CorpoTermico).registrar_estado tempo ::
      stepCorpos T tempo (i + 1) resto

/-- One iteration of the coupled step loop: accumulate `delta_Q` from the
start-of-step temperature snapshot, divide by the capacities, add to the
temperature vector, advance time, push into the bodies and record. -/
def multiStep (P : ParamsMulti) (st : EstadoMulti) : EstadoMulti :=
  let dQ := stepDeltaQ P.n P.coefs P.areas P.T_amb P.dt P.mc st.temps
  let T1 := fun i => st.temps i + dQ i / P.caps i
  let tempo1 := st.tempo + P.dt
  { temps := T1
    corpos := stepCorpos T1 tempo1 0 st.corpos
    tempo := tempo1 }

/-- The engine's per-body convection coefficients for the coupled mode:
the stored vector when present, else the scalar default for every body. -/
def SimuladorTermico.coefsConv (s : SimuladorTermico) : ℕ → ℚ :=
  match s.condutancia_ambiente with
  | some v => fun i => v.getD i 0
  | none => fun _ => s.coef_conveccao

/-- The `ParamsMulti` record read off an engine at the start of
`simular_multiplos_corpos`. -/
def SimuladorTermico.paramsMulti (s : SimuladorTermico) : ParamsMulti :=
  { n := s.corpos.length
    coefs := s.coefsConv
    areas := fun i => (s.corpos.getD i corpoPadrao).area_superficie
    caps := fun i => (s.corpos.getD i corpoPadrao).capacidade_termica
    T_amb := s.temperatura_ambiente
    dt := s.delta_t
    mc := s.matriz_condutancia }

/-- The `EstadoMulti` an engine enters the coupled step loop with. -/
def SimuladorTermico.estadoMulti (s : SimuladorTermico) : EstadoMulti :=
  { temps := fun i => (s.corpos.getD i corpoPadrao).temperatura
    corpos := s.corpos
    tempo := s.tempo_atual }

/-- Embeds `SimuladorTermico.simular_multiplos_corpos`: errors when
`delta_t = 0` (the Python float division `tempo_total / self.delta_t`
raises ZeroDivisionError), otherwise runs
`int(tempo_total / delta_t)` coupled steps and writes the final bodies and
elapsed time back into the engine. -/
def SimuladorTermico.simular_multiplos_corpos (s : SimuladorTermico)
    (tempo_total : ℚ) : Except String SimuladorTermico :=
  if s.delta_t = 0 then Except.error "ZeroDivisionError" else
  let passos := num_passos tempo_total s.delta_t
  let stF := (multiStep s.paramsMulti)^[passos] s.estadoMulti
  Except.ok { s with corpos := stF.corpos, tempo_atual := stF.tempo }

/-- Embeds `SimuladorTermico.simular` with the default `modo='ambiente'`:
dispatches to the coupled mode when there is more than one body and a
conductance matrix is set, else runs `int(tempo_total / delta_t)` ambient
steps (erroring when `delta_t = 0`, as the Python division would). -/
def SimuladorTermico.simular (s : SimuladorTermico) (tempo_total : ℚ) :
    Except String SimuladorTermico :=
  if 1 < s.corpos.length ∧ s.matriz_condutancia.isSome then
    s.simular_multiplos_corpos tempo_total
  else if s.delta_t = 0 then Except.error "ZeroDivisionError"
  else Except.ok
    (SimuladorTermico.executar_passo_ambiente^[num_passos tempo_total s.delta_t] s)

/-!
Helper lemmas about the accumulation passes of the coupled step.
-/

lemma addAt_apply (f : ℕ → ℚ) (i j : ℕ) (x : ℚ) :
    addAt f i x j = f j + if j = i then x else 0 := by
  unfold addAt
  by_cases h : j = i <;> simp [h]

lemma sum_addAt (f : ℕ → ℚ) (n i : ℕ) (hi : i < n) (x : ℚ) :
    ∑ j ∈ Finset.range n, addAt f i x j = (∑ j ∈ Finset.range n, f j) + x := by
  simp only [addAt_apply]
  rw [Finset.sum_add_distrib]
  congr 1
  rw [Finset.sum_ite_eq' (Finset.range n) i fun _ => x]
  simp [hi]

lemma convFold_apply (l : List ℕ) (coefs areas T : ℕ → ℚ) (T_amb dt : ℚ)
    (dQ : ℕ → ℚ) (j : ℕ) (hl : l.Nodup) :
    convFold l coefs areas T T_amb dt dQ j =
      dQ j + if j ∈ l then convTerm (coefs j) (areas j) (T j) T_amb dt else 0 := by
  induction l generalizing dQ with
  | nil => simp [convFold]
  | cons a l ih =>
    have ha : a ∉ l := (List.nodup_cons.mp hl).1
    have hl2 : l.Nodup := (List.nodup_cons.mp hl).2
    show convFold l coefs areas T T_amb dt
        (addAt dQ a (convTerm (coefs a) (areas a) (T a) T_amb dt)) j = _
    rw [ih _ hl2, addAt_apply]
    by_cases hj : j = a
    · subst hj
      simp [ha]
    · simp [hj, List.mem_cons]

/-- The net effect of the pairwise exchange `p` on `delta_Q[j]`: the exact
quantity `condQ` is moved from index `p.1` to index `p.2` when the
conductance is positive, and nothing happens otherwise. -/
def contribPar (G : ℕ → ℕ → ℚ) (T : ℕ → ℚ) (dt : ℚ) (p : ℕ × ℕ) (j : ℕ) : ℚ :=
  if 0 < G p.1 p.2 then
    (if j = p.1 then -(condQ G T dt p) else 0) + (if j = p.2 then condQ G T dt p else 0)
  else 0

lemma condPasso_apply (G : ℕ → ℕ → ℚ) (T : ℕ → ℚ) (dt : ℚ) (dQ : ℕ → ℚ)
    (p : ℕ × ℕ) (j : ℕ) :
    condPasso G T dt dQ p j = dQ j + contribPar G T dt p j := by
  unfold condPasso contribPar
  by_cases hg : 0 < G p.1 p.2
  · simp only [if_pos hg, addAt_apply]
    ring
  · simp [hg]

lemma condFold_apply (l : List (ℕ × ℕ)) (G : ℕ → ℕ → ℚ) (T : ℕ → ℚ) (dt : ℚ)
    (dQ : ℕ → ℚ) (j : ℕ) :
    condFold l G T dt dQ j = dQ j + (l.map fun p => contribPar G T dt p j).sum := by
  induction l generalizing dQ with
  | nil => simp [condFold]
  | cons p l ih =>
    show condFold l G T dt (condPasso G T dt dQ p) j = _
    rw [ih, condPasso_apply]
    simp only [List.map_cons, List.sum_cons]
    ring

lemma sum_condPasso (G : ℕ → ℕ → ℚ) (T : ℕ → ℚ) (dt : ℚ) (dQ : ℕ → ℚ)
    (p : ℕ × ℕ) (n : ℕ) (h1 : p.1 < n) (h2 : p.2 < n) :
    ∑ j ∈ Finset.range n, condPasso G T dt dQ p j = ∑ j ∈ Finset.range n, dQ j := by
  unfold condPasso
  by_cases hg : 0 < G p.1 p.2
  · simp only [if_pos hg]
    rw [sum_addAt _ _ _ h2, sum_addAt _ _ _ h1]
    ring
  · simp only [if_neg hg]

lemma mem_pares {n : ℕ} {p : ℕ × ℕ} (hp : p ∈ pares n) : p.1 < p.2 ∧ p.2 < n := by
  unfold pares at hp
  simp only [List.mem_flatMap, List.mem_map, List.mem_filter, List.mem_range,
    decide_eq_true_eq] at hp
  obtain ⟨i, _, j, ⟨hjn, hij⟩, rfl⟩ := hp
  exact ⟨hij, hjn⟩

lemma sum_condFold (l : List (ℕ × ℕ)) (G : ℕ → ℕ → ℚ) (T : ℕ → ℚ) (dt : ℚ)
    (dQ : ℕ → ℚ) (n : ℕ) (hl : ∀ p ∈ l, p.1 < n ∧ p.2 < n) :
    ∑ j ∈ Finset.range n, condFold l G T dt dQ j = ∑ j ∈ Finset.range n, dQ j := by
  induction l generalizing dQ with
  | nil => rfl
  | cons p l ih =>
    show ∑ j ∈ Finset.range n, condFold l G T dt (condPasso G T dt dQ p) j = _
    rw [ih _ fun q hq => hl q (List.mem_cons_of_mem _ hq)]
    exact sum_condPasso G T dt dQ p n (hl p (List.mem_cons_self p l)).1
      (hl p (List.mem_cons_self p l)).2

lemma sum_convFold_range (n : ℕ) (coefs areas T : ℕ → ℚ) (T_amb dt : ℚ) :
    ∑ j ∈ Finset.range n, convFold (List.range n) coefs areas T T_amb dt (fun _ => 0) j
      = ∑ j ∈ Finset.range n, convTerm (coefs j) (areas j) (T j) T_amb dt := by
  refine Finset.sum_congr rfl fun j hj => ?_
  rw [convFold_apply _ _ _ _ _ _ _ _ (List.nodup_range n)]
  simp [List.mem_range, Finset.mem_range.mp hj]

/-!
Claim theorems.
-/

/-- C1: in the coupled multi-body step, every pairwise conduction exchange
moves the same quantity `q` out of body `i` and into body `j`, so folding
the conduction pass over the pair list leaves the total of `delta_Q`
unchanged (first conjunct, for any starting accumulator), and the total of
the full per-step `delta_Q` equals the sum of the ambient-convection terms
alone (second conjunct): conduction nets to exactly zero and only ambient
convection changes the total system energy. -/
theorem conducao_acoplada_conserva_energia (n : ℕ) (G : List (List ℚ))
    (coefs areas T : ℕ → ℚ) (T_amb dt : ℚ) (dQ : ℕ → ℚ) :
    (∑ j ∈ Finset.range n, condFold (pares n) (getMC G) T dt dQ j
        = ∑ j ∈ Finset.range n, dQ j) ∧
    (∑ j ∈ Finset.range n, stepDeltaQ n coefs areas T_amb dt (some G) T j
        = ∑ j ∈ Finset.range n, convTerm (coefs j) (areas j) (T j) T_amb dt) := by
  have hbounds : ∀ p ∈ pares n, p.1 < n ∧ p.2 < n := by
    intro p hp
    exact ⟨(mem_pares hp).1.trans (mem_pares hp).2, (mem_pares hp).2⟩
  constructor
  · exact sum_condFold _ _ _ _ _ _ hbounds
  · show ∑ j ∈ Finset.range n,
        condFold (pares n) (getMC G) T dt
          (convFold (List.range n) coefs areas T T_amb dt fun _ => 0) j = _
    rw [sum_condFold _ _ _ _ _ _ hbounds]
    exact sum_convFold_range n coefs areas T T_amb dt

/-- C8: `taxa_conveccao` returns exactly h·area·(T_corpo − T_ambiente) for
all inputs (positive when the body is hotter than the ambient, i.e. when it
loses heat), and on the spec's worked example (mass 1 kg, specific heat
1000 J/(kg·K), area 0.1 m², initial temperature 100 °C, ambient 20 °C,
h = 10 W/(m²·K), Δt = 1 s) the first ambient step computes rate 80 W,
ΔQ = −80 J, and leaves the body at 99.92 °C = 2498/25 °C. -/
theorem taxa_conveccao_formula_e_exemplo :
    (∀ h area T_corpo T_ambiente : ℚ,
      taxa_conveccao h area T_corpo T_ambiente = h * area * (T_corpo - T_ambiente)) ∧
    taxa_conveccao 10 (1 / 10) 100 20 = 80 ∧
    (((SimuladorTermico.init 1).adicionar_corpo
        (CorpoTermico.init "corpo" 1 1000 (1 / 10) 100)).configurar_ambiente 20
        none).simular_conveccao_ambiente (CorpoTermico.init "corpo" 1 1000 (1 / 10) 100)
      = -80 ∧
    (((((SimuladorTermico.init 1).adicionar_corpo
        (CorpoTermico.init "corpo" 1 1000 (1 / 10) 100)).configurar_ambiente 20
        none).executar_passo_ambiente).corpos.getD 0 corpoPadrao).temperatura
      = 2498 / 25 := by
  refine ⟨fun h area T1 T2 => rfl, by norm_num [taxa_conveccao], ?_, ?_⟩
  · norm_num [SimuladorTermico.simular_conveccao_ambiente, SimuladorTermico.init,
      SimuladorTermico.adicionar_corpo, SimuladorTermico.configurar_ambiente,
      CorpoTermico.init, taxa_conveccao, calcular_delta_Q]
  · norm_num [SimuladorTermico.executar_passo_ambiente,
      SimuladorTermico.simular_conveccao_ambiente, SimuladorTermico.init,
      SimuladorTermico.adicionar_corpo, SimuladorTermico.configurar_ambiente,
      CorpoTermico.init, CorpoTermico.atualizar_temperatura,
      CorpoTermico.registrar_estado, CorpoTermico.capacidade_termica,
      taxa_conveccao, calcular_delta_Q]

/-- C6 (code bug): `CorpoTermico.__init__` performs no validation at all, so
the body with mass 0 is constructed successfully (the embedded constructor
is a total function with no error path, mirroring the code) and its heat
capacity is 0, violating the invariant heat capacity > 0 that the claim
says the constructor must enforce; `atualizar_temperatura` would then
divide by that zero capacity. -/
theorem construtor_aceita_massa_zero :
    (CorpoTermico.init "corpo" 0 1000 (1 / 10) 25).capacidade_termica = 0 ∧
    (CorpoTermico.init "corpo" 0 1000 (1 / 10) 25).temperatura = 25 ∧
    (CorpoTermico.init "corpo" 1 0 (1 / 10) 25).capacidade_termica = 0 := by
  refine ⟨?_, rfl, ?_⟩ <;>
    norm_num [CorpoTermico.init, CorpoTermico.capacidade_termica]

/-- A three-body engine used to exercise the configuration checks. -/
def simulador3 : SimuladorTermico :=
  (((SimuladorTermico.init 1).adicionar_corpo
      (CorpoTermico.init "a" 1 1 1 10)).adicionar_corpo
    (CorpoTermico.init "b" 1 1 1 20)).adicionar_corpo
    (CorpoTermico.init "c" 1 1 1 30)

/-- C7 (counterexample): the claim says every conductance matrix that is
not square with side equal to the body count is rejected, but the code
checks only `matriz.shape[0]`: this 3-row, 2-column (non-square) matrix is
accepted by the three-body engine and stored. -/
theorem definir_matriz_aceita_nao_quadrada :
    simulador3.corpos.length = 3 ∧
    ([[0, 1], [1, 0], [0, 0]] : List (List ℚ)).length = 3 ∧
    (([[0, 1], [1, 0], [0, 0]] : List (List ℚ)).getD 0 []).length = 2 ∧
    simulador3.definir_matriz_condutancia [[0, 1], [1, 0], [0, 0]]
      = Except.ok { simulador3 with matriz_condutancia := some [[0, 1], [1, 0], [0, 0]] } := by
  refine ⟨rfl, rfl, rfl, ?_⟩
  simp [SimuladorTermico.definir_matriz_condutancia, simulador3,
    SimuladorTermico.init, SimuladorTermico.adicionar_corpo]

/-- C7 (amended): configuring a conductance matrix whose row count differs
from the body count, or an ambient-coefficient vector whose length differs
from the body count, fails with an error before any step runs and without
producing a modified engine (in particular a 2×2 matrix supplied for a
3-body engine is rejected — see the witness); a matching row count or
vector length is stored.  Column counts of the matrix are not checked. -/
theorem definir_configuracao_valida_dimensoes (s : SimuladorTermico)
    (matriz : List (List ℚ)) (conds : List ℚ) :
    (s.corpos.length ≠ matriz.length →
      s.definir_matriz_condutancia matriz
        = Except.error "Dimensão da matriz não corresponde ao número de corpos") ∧
    (s.corpos.length = matriz.length →
      s.definir_matriz_condutancia matriz
        = Except.ok { s with matriz_condutancia := some matriz }) ∧
    (s.corpos.length ≠ conds.length →
      s.definir_condutancia_ambiente conds
        = Except.error "Número de condutâncias não corresponde ao número de corpos") ∧
    (s.corpos.length = conds.length →
      s.definir_condutancia_ambiente conds
        = Except.ok { s with condutancia_ambiente := some conds }) := by
  refine ⟨fun hne => ?_, fun heq => ?_, fun hne => ?_, fun heq => ?_⟩
  · simp [SimuladorTermico.definir_matriz_condutancia, hne]
  · simp [SimuladorTermico.definir_matriz_condutancia, heq]
  · simp [SimuladorTermico.definir_condutancia_ambiente, hne]
  · simp [SimuladorTermico.definir_condutancia_ambiente, heq]

/-- Witness for C7: the 2×2 matrix supplied for the 3-body engine is
rejected with the ValueError message, and so is a 2-element ambient
vector. -/
theorem definir_configuracao_valida_dimensoes_witness :
    simulador3.corpos.length ≠ ([[0, 1], [1, 0]] : List (List ℚ)).length ∧
    simulador3.definir_matriz_condutancia [[0, 1], [1, 0]]
      = Except.error "Dimensão da matriz não corresponde ao número de corpos" ∧
    simulador3.definir_condutancia_ambiente [5, 5]
      = Except.error "Número de condutâncias não corresponde ao número de corpos" :=
  ⟨by decide,
    (definir_configuracao_valida_dimensoes simulador3 [[0, 1], [1, 0]] [5, 5]).1
      (by decide),
    (definir_configuracao_valida_dimensoes simulador3 [[0, 1], [1, 0]] [5, 5]).2.2.1
      (by decide)⟩

/-- A one-body engine with Δt = 1 used for the validation claims. -/
def simuladorC5 : SimuladorTermico :=
  (SimuladorTermico.init 1).adicionar_corpo (CorpoTermico.init "c" 1 1000 (1 / 10) 50)

/-- C5 (code bug): neither the constructor nor `simular` validates Δt or the
total time.  With Δt = 1 and total time −5 the code silently runs
`range(int(-5)) = range(-5)`, i.e. zero steps, and returns normally with
the engine untouched; with Δt = 0 the division `tempo_total / delta_t`
raises ZeroDivisionError instead of the InvalidParameter the claim
requires. -/
theorem simular_sem_validacao_de_parametros :
    simuladorC5.simular (-5) = Except.ok simuladorC5 ∧
    ({ simuladorC5 with delta_t := 0 } : SimuladorTermico).simular 10
      = Except.error "ZeroDivisionError" := by
  constructor
  · have hpassos : num_passos (-5) 1 = 0 := by
      norm_num [num_passos, pyInt]
    simp [SimuladorTermico.simular, simuladorC5, SimuladorTermico.init,
      SimuladorTermico.adicionar_corpo, hpassos]
  · simp [SimuladorTermico.simular, simuladorC5, SimuladorTermico.init,
      SimuladorTermico.adicionar_corpo]

/-- C2: the coupled step reads every temperature from the start-of-step
snapshot `T` and only accumulates into `delta_Q`, so folding the
convection pass over the bodies in any order and the conduction pass over
the pairs in any order yields the same accumulated `delta_Q` (first
conjunct) and hence the same post-step temperature
`T i + delta_Q i / caps i` (second conjunct): the result is independent of
the iteration order over bodies and pairs. -/
theorem passo_acoplado_independe_da_ordem (lcorpos : List ℕ)
    (lpares : List (ℕ × ℕ)) (n : ℕ) (coefs areas T caps : ℕ → ℚ)
    (T_amb dt : ℚ) (mc : Option (List (List ℚ))) (i : ℕ)
    (hperm : List.Perm lcorpos (List.range n))
    (hperm2 : List.Perm lpares (pares n)) :
    stepDeltaQordem lcorpos lpares coefs areas T_amb dt mc T i
        = stepDeltaQ n coefs areas T_amb dt mc T i ∧
    T i + stepDeltaQordem lcorpos lpares coefs areas T_amb dt mc T i / caps i
        = T i + stepDeltaQ n coefs areas T_amb dt mc T i / caps i := by
  have hnodup : lcorpos.Nodup := hperm.nodup_iff.mpr (List.nodup_range n)
  have hconv : ∀ j, convFold lcorpos coefs areas T T_amb dt (fun _ => 0) j
      = convFold (List.range n) coefs areas T T_amb dt (fun _ => 0) j := by
    intro j
    rw [convFold_apply _ _ _ _ _ _ _ _ hnodup,
      convFold_apply _ _ _ _ _ _ _ _ (List.nodup_range n)]
    exact congrArg (0 + ·) (if_congr (hperm.mem_iff) rfl rfl)
  have hmain : stepDeltaQordem lcorpos lpares coefs areas T_amb dt mc T i
      = stepDeltaQ n coefs areas T_amb dt mc T i := by
    cases mc with
    | none => exact hconv i
    | some G =>
      show condFold lpares (getMC G) T dt
          (convFold lcorpos coefs areas T T_amb dt fun _ => 0) i
        = condFold (pares n) (getMC G) T dt
          (convFold (List.range n) coefs areas T T_amb dt fun _ => 0) i
      rw [condFold_apply, condFold_apply, hconv i,
        (hperm2.map fun p => contribPar (getMC G) T dt p i).sum_eq]
  exact ⟨hmain, by rw [hmain]⟩

/-- Witness for C2: with three coupled bodies, folding the convection pass
in the order [2, 0, 1] and the conduction pass in the order
[(1,2), (0,1), (0,2)] gives the same accumulated `delta_Q[0]` as the
code's canonical orders. -/
theorem passo_acoplado_independe_da_ordem_witness :
    List.Perm [2, 0, 1] (List.range 3) ∧
    List.Perm [(1, 2), (0, 1), (0, 2)] (pares 3) ∧
    stepDeltaQordem [2, 0, 1] [(1, 2), (0, 1), (0, 2)] (fun _ => 2) (fun _ => 3) 25 1
        (some [[0, 1, 1], [1, 0, 1], [1, 1, 0]]) (fun j => (j : ℚ)) 0
      = stepDeltaQ 3 (fun _ => 2) (fun _ => 3) 25 1
        (some [[0, 1, 1], [1, 0, 1], [1, 1, 0]]) (fun j => (j : ℚ)) 0 :=
  ⟨by decide, by decide,
    (passo_acoplado_independe_da_ordem [2, 0, 1] [(1, 2), (0, 1), (0, 2)] 3
      (fun _ => 2) (fun _ => 3) (fun j => (j : ℚ)) (fun _ => 1) 25 1
      (some [[0, 1, 1], [1, 0, 1], [1, 1, 0]]) 0 (by decide) (by decide)).1⟩

/-- C9: for a single body whose temperature equals the ambient temperature,
the convection-only simulation is a fixed point: after any number of
ambient steps the body's temperature still equals the ambient temperature
(the rate h·A·(T − T) is zero, so zero heat is applied at every step). -/
theorem equilibrio_ponto_fixo (s : SimuladorTermico) (c : CorpoTermico) (n : ℕ)
    (hc : s.corpos = [c]) (ht : c.temperatura = s.temperatura_ambiente) :
    ((SimuladorTermico.executar_passo_ambiente^[n] s).corpos.getD 0
        corpoPadrao).temperatura = s.temperatura_ambiente := by
  induction n generalizing s c with
  | zero => simp [hc, ht]
  | succ n ih =>
    rw [Function.iterate_succ_apply]
    have hc2 : (s.executar_passo_ambiente).corpos
        = [(c.atualizar_temperatura (s.simular_conveccao_ambiente c)
            s.delta_t).registrar_estado (s.tempo_atual + s.delta_t)] := by
      simp [SimuladorTermico.executar_passo_ambiente, hc]
    have htemp : ((c.atualizar_temperatura (s.simular_conveccao_ambiente c)
        s.delta_t).registrar_estado (s.tempo_atual + s.delta_t)).temperatura
        = s.temperatura_ambiente := by
      simp [CorpoTermico.atualizar_temperatura, CorpoTermico.registrar_estado,
        SimuladorTermico.simular_conveccao_ambiente, taxa_conveccao,
        calcular_delta_Q, ht]
    have hamb : (s.executar_passo_ambiente).temperatura_ambiente
        = s.temperatura_ambiente := rfl
    rw [← hamb]
    exact ih _ _ hc2 (by rw [htemp, hamb])

/-- A single body already at the default ambient temperature of 25 °C. -/
def corpoEq : CorpoTermico := CorpoTermico.init "eq" 2 500 1 25

/-- A one-body engine whose body sits at the ambient temperature. -/
def simuladorEq : SimuladorTermico :=
  (SimuladorTermico.init 1).adicionar_corpo corpoEq

/-- Witness for C9: after three ambient steps the equilibrated body is
still at the ambient temperature. -/
theorem equilibrio_ponto_fixo_witness :
    simuladorEq.corpos = [corpoEq] ∧
    corpoEq.temperatura = simuladorEq.temperatura_ambiente ∧
    ((SimuladorTermico.executar_passo_ambiente^[3] simuladorEq).corpos.getD 0
        corpoPadrao).temperatura = simuladorEq.temperatura_ambiente :=
  ⟨by decide, by decide, equilibrio_ponto_fixo simuladorEq corpoEq 3 (by decide) (by decide)⟩

lemma atualizarEm_eq_set (l : List CorpoTermico) (i : ℕ) (dQ dt : ℚ)
    (hi : i < l.length) :
    atualizarEm l i dQ dt = l.set i ((l.getD i corpoPadrao).atualizar_temperatura dQ dt) := by
  have e : l[i]? = some (l.getD i corpoPadrao) := by
    rw [List.getD_eq_getElem?_getD, List.getElem?_eq_getElem hi]
    rfl
  unfold atualizarEm
  rw [e]

/-- C3 (spec-modelled conduction-pair step): one conduction-mode step on
the bodies at distinct indices `i1` and `i2` computes
q = heatOverStep(conductionRate(k, area, thickness, T₁, T₂), Δt) from the
pre-step temperatures, applies exactly −q to the first body and exactly +q
to the second (then records state at the advanced time), and the two heat
deltas sum to exactly zero. -/
theorem passo_conducao_deltas_opostos (s : SimuladorTermico) (i1 i2 : ℕ)
    (k area_contato espessura : ℚ) (h1 : i1 < s.corpos.length)
    (h2 : i2 < s.corpos.length) (hne : i1 ≠ i2) :
    (s.executar_passo_conducao i1 i2 k area_contato espessura).corpos.getD i1 corpoPadrao
      = ((s.corpos.getD i1 corpoPadrao).atualizar_temperatura
          (-(calcular_delta_Q (taxa_conducao k area_contato espessura
              (s.corpos.getD i1 corpoPadrao).temperatura
              (s.corpos.getD i2 corpoPadrao).temperatura) s.delta_t))
          s.delta_t).registrar_estado (s.tempo_atual + s.delta_t) ∧
    (s.executar_passo_conducao i1 i2 k area_contato espessura).corpos.getD i2 corpoPadrao
      = ((s.corpos.getD i2 corpoPadrao).atualizar_temperatura
          (calcular_delta_Q (taxa_conducao k area_contato espessura
              (s.corpos.getD i1 corpoPadrao).temperatura
              (s.corpos.getD i2 corpoPadrao).temperatura) s.delta_t)
          s.delta_t).registrar_estado (s.tempo_atual + s.delta_t) ∧
    -(calcular_delta_Q (taxa_conducao k area_contato espessura
        (s.corpos.getD i1 corpoPadrao).temperatura
        (s.corpos.getD i2 corpoPadrao).temperatura) s.delta_t)
      + calcular_delta_Q (taxa_conducao k area_contato espessura
        (s.corpos.getD i1 corpoPadrao).temperatura
        (s.corpos.getD i2 corpoPadrao).temperatura) s.delta_t = 0 := by
  set c1 := s.corpos.getD i1 corpoPadrao with hc1
  set c2 := s.corpos.getD i2 corpoPadrao with hc2
  set q := calcular_delta_Q
    (taxa_conducao k area_contato espessura c1.temperatura c2.temperatura)
    s.delta_t with hqdef
  have hstep : (s.executar_passo_conducao i1 i2 k area_contato espessura).corpos
      = ((s.corpos.set i1 (c1.atualizar_temperatura (-q) s.delta_t)).set i2
          (((s.corpos.set i1 (c1.atualizar_temperatura (-q) s.delta_t)).getD i2
            corpoPadrao).atualizar_temperatura q s.delta_t)).map
          (fun c => c.registrar_estado (s.tempo_atual + s.delta_t)) := by
    show (atualizarEm (atualizarEm s.corpos i1 (-q) s.delta_t) i2 q s.delta_t).map
        (fun c => c.registrar_estado (s.tempo_atual + s.delta_t)) = _
    rw [atualizarEm_eq_set s.corpos i1 (-q) s.delta_t h1,
      atualizarEm_eq_set _ i2 q s.delta_t (by simpa using h2)]
  have hgetd2 : (s.corpos.set i1 (c1.atualizar_temperatura (-q) s.delta_t)).getD i2
      corpoPadrao = c2 := by
    rw [List.getD_eq_getElem?_getD, List.getElem?_set_ne hne, hc2,
      List.getD_eq_getElem?_getD]
  rw [hgetd2] at hstep
  refine ⟨?_, ?_, neg_add_cancel q⟩
  · rw [hstep, List.getD_eq_getElem?_getD, List.getElem?_map,
      List.getElem?_set_ne (Ne.symm hne)]
    simp [List.getElem?_set_self', h1]
  · rw [hstep, List.getD_eq_getElem?_getD, List.getElem?_map]
    simp [List.getElem?_set_self', h2]

/-- A two-body engine for exercising the conduction-pair mode. -/
def simuladorC3 : SimuladorTermico :=
  ((SimuladorTermico.init 1).adicionar_corpo
    (CorpoTermico.init "A" 1 100 1 90)).adicionar_corpo
    (CorpoTermico.init "B" 2 200 1 10)

/-- Witness for C3: on the two-body engine the conduction-pair heat deltas
sum to exactly zero. -/
theorem passo_conducao_deltas_opostos_witness :
    (0 : ℕ) < simuladorC3.corpos.length ∧ 1 < simuladorC3.corpos.length ∧
    -(calcular_delta_Q (taxa_conducao 50 (1 / 100) (1 / 1000)
        (simuladorC3.corpos.getD 0 corpoPadrao).temperatura
        (simuladorC3.corpos.getD 1 corpoPadrao).temperatura) simuladorC3.delta_t)
      + calcular_delta_Q (taxa_conducao 50 (1 / 100) (1 / 1000)
        (simuladorC3.corpos.getD 0 corpoPadrao).temperatura
        (simuladorC3.corpos.getD 1 corpoPadrao).temperatura) simuladorC3.delta_t = 0 :=
  ⟨by decide, by decide,
    (passo_conducao_deltas_opostos simuladorC3 0 1 50 (1 / 100) (1 / 1000)
      (by decide) (by decide) (by decide)).2.2⟩

lemma passo_ambiente_corpos_length (s : SimuladorTermico) :
    (s.executar_passo_ambiente).corpos.length = s.corpos.length := by
  simp [SimuladorTermico.executar_passo_ambiente]

lemma passo_ambiente_hist_length (s : SimuladorTermico) (i : ℕ)
    (hi : i < s.corpos.length) :
    ((s.executar_passo_ambiente).corpos.getD i corpoPadrao).historico_tempo.length
      = ((s.corpos.getD i corpoPadrao).historico_tempo).length + 1 := by
  simp [SimuladorTermico.executar_passo_ambiente, List.getD_eq_getElem?_getD,
    List.getElem?_map, List.getElem?_eq_getElem hi, CorpoTermico.registrar_estado,
    CorpoTermico.atualizar_temperatura]

lemma iterate_passo_ambiente_hist_length (n : ℕ) (s : SimuladorTermico) (i : ℕ)
    (hi : i < s.corpos.length) :
    ((SimuladorTermico.executar_passo_ambiente^[n] s).corpos.getD i
        corpoPadrao).historico_tempo.length
      = ((s.corpos.getD i corpoPadrao).historico_tempo).length + n := by
  induction n generalizing s with
  | zero => rfl
  | succ n ih =>
    rw [Function.iterate_succ_apply,
      ih _ (by rw [passo_ambiente_corpos_length]; exact hi),
      passo_ambiente_hist_length s i hi]
    omega

/-- C4: for positive Δt and positive total time, the (default-mode)
simulation computes `int(tempo_total / delta_t) = ⌊tempo_total / Δt⌋` and
executes exactly that many steps — the run is exactly that many
iterations of the per-step function, and each body's time history grows by
exactly that many entries, so any remainder below one Δt is dropped. -/
theorem numero_de_passos_floor (s : SimuladorTermico) (tempo_total : ℚ) (i : ℕ)
    (hdt : 0 < s.delta_t) (ht : 0 < tempo_total)
    (hmodo : ¬(1 < s.corpos.length ∧ s.matriz_condutancia.isSome = true))
    (hi : i < s.corpos.length) :
    num_passos tempo_total s.delta_t = (⌊tempo_total / s.delta_t⌋).toNat ∧
    s.simular tempo_total = Except.ok
      (SimuladorTermico.executar_passo_ambiente^[(⌊tempo_total / s.delta_t⌋).toNat] s) ∧
    ((SimuladorTermico.executar_passo_ambiente^[(⌊tempo_total / s.delta_t⌋).toNat]
        s).corpos.getD i corpoPadrao).historico_tempo.length
      = ((s.corpos.getD i corpoPadrao).historico_tempo).length
        + (⌊tempo_total / s.delta_t⌋).toNat := by
  have hnp : num_passos tempo_total s.delta_t = (⌊tempo_total / s.delta_t⌋).toNat := by
    unfold num_passos pyInt
    rw [if_pos (le_of_lt (div_pos ht hdt))]
  refine ⟨hnp, ?_, iterate_passo_ambiente_hist_length _ s i hi⟩
  unfold SimuladorTermico.simular
  rw [if_neg hmodo, if_neg (ne_of_gt hdt), hnp]

/-- A one-body engine with Δt = 10 s. -/
def simuladorC4 : SimuladorTermico :=
  (SimuladorTermico.init 10).adicionar_corpo (CorpoTermico.init "c" 1 1 1 50)

/-- Witness for C4: with Δt = 10 s and total time 25 s the step count is
⌊25/10⌋ = 2 and the body's time history grows by exactly 2 entries. -/
theorem numero_de_passos_floor_witness :
    0 < simuladorC4.delta_t ∧ 0 < (25 : ℚ) ∧
    num_passos 25 simuladorC4.delta_t = (⌊(25 : ℚ) / simuladorC4.delta_t⌋).toNat ∧
    (⌊(25 : ℚ) / simuladorC4.delta_t⌋).toNat = 2 ∧
    ((SimuladorTermico.executar_passo_ambiente^[(⌊(25 : ℚ) / simuladorC4.delta_t⌋).toNat]
        simuladorC4).corpos.getD 0 corpoPadrao).historico_tempo.length
      = ((simuladorC4.corpos.getD 0 corpoPadrao).historico_tempo).length
        + (⌊(25 : ℚ) / simuladorC4.delta_t⌋).toNat :=
  ⟨by norm_num [simuladorC4, SimuladorTermico.init, SimuladorTermico.adicionar_corpo],
    by norm_num,
    (numero_de_passos_floor simuladorC4 25 0
      (by norm_num [simuladorC4, SimuladorTermico.init, SimuladorTermico.adicionar_corpo])
      (by norm_num) (by decide) (by decide)).1,
    by
      have hfloor : ⌊(25 : ℚ) / simuladorC4.delta_t⌋ = 2 := by
        norm_num [simuladorC4, SimuladorTermico.init, SimuladorTermico.adicionar_corpo]
      rw [hfloor]
      rfl,
    (numero_de_passos_floor simuladorC4 25 0
      (by norm_num [simuladorC4, SimuladorTermico.init, SimuladorTermico.adicionar_corpo])
      (by norm_num) (by decide) (by decide)).2.2⟩

lemma stepCorpos_length (T : ℕ → ℚ) (tempo : ℚ) (i0 : ℕ) (l : List CorpoTermico) :
    (stepCorpos T tempo i0 l).length = l.length := by
  induction l generalizing i0 with
  | nil => rfl
  | cons c resto ih => simp [stepCorpos, ih]

lemma stepCorpos_getElem (T : ℕ → ℚ) (tempo : ℚ) (i0 i : ℕ) (l : List CorpoTermico) :
    (stepCorpos T tempo i0 l)[i]?
      = (l[i]?).map fun c =>
          ({ c with temperatura := T (i0 + i) } : CorpoTermico).registrar_estado tempo := by
  induction l generalizing i0 i with
  | nil => simp [stepCorpos]
  | cons c resto ih =>
    cases i with
    | zero => simp [stepCorpos]
    | succ i =>
      have harith : i0 + 1 + i = i0 + (i + 1) := by omega
      simp [stepCorpos, ih (i0 + 1) i, harith]

lemma multiStep_getD (P : ParamsMulti) (st : EstadoMulti) (i : ℕ)
    (hi : i < st.corpos.length) :
    (multiStep P st).corpos.getD i corpoPadrao
      = ({ st.corpos.getD i corpoPadrao with
            temperatura := st.temps i
              + stepDeltaQ P.n P.coefs P.areas P.T_amb P.dt P.mc st.temps i / P.caps i }
          : CorpoTermico).registrar_estado (st.tempo + P.dt) := by
  have e : st.corpos[i]? = some (st.corpos.getD i corpoPadrao) := by
    rw [List.getD_eq_getElem?_getD, List.getElem?_eq_getElem hi]
    rfl
  show (stepCorpos
      (fun j => st.temps j
        + stepDeltaQ P.n P.coefs P.areas P.T_amb P.dt P.mc st.temps j / P.caps j)
      (st.tempo + P.dt) 0 st.corpos).getD i corpoPadrao = _
  rw [List.getD_eq_getElem?_getD, stepCorpos_getElem, e]
  simp

lemma iterate_multiStep_invariante (P : ParamsMulti) (st : EstadoMulti) (k i : ℕ)
    (hi : i < st.corpos.length) :
    ((multiStep P)^[k] st).corpos.length = st.corpos.length ∧
    ((multiStep P)^[k] st).tempo = st.tempo + k * P.dt ∧
    (((multiStep P)^[k] st).corpos.getD i corpoPadrao).historico_tempo
      = (st.corpos.getD i corpoPadrao).historico_tempo
        ++ (List.range k).map (fun j : ℕ => st.tempo + ((j : ℚ) + 1) * P.dt) ∧
    (((multiStep P)^[k] st).corpos.getD i corpoPadrao).historico_temperatura.length
      = (st.corpos.getD i corpoPadrao).historico_temperatura.length + k := by
  induction k with
  | zero => simp
  | succ k ih =>
    obtain ⟨hL, hT, hHtempo, hHtemp⟩ := ih
    have hi2 : i < ((multiStep P)^[k] st).corpos.length := by rw [hL]; exact hi
    have hget := multiStep_getD P ((multiStep P)^[k] st) i hi2
    refine ⟨?_, ?_, ?_, ?_⟩
    · rw [Function.iterate_succ_apply']
      show (stepCorpos _ _ 0 ((multiStep P)^[k] st).corpos).length = _
      rw [stepCorpos_length, hL]
    · rw [Function.iterate_succ_apply']
      show ((multiStep P)^[k] st).tempo + P.dt = _
      rw [hT]
      push_cast
      ring
    · rw [Function.iterate_succ_apply', hget]
      simp only [CorpoTermico.registrar_estado]
      have harit : st.tempo + (k : ℚ) * P.dt + P.dt = st.tempo + ((k : ℚ) + 1) * P.dt := by
        ring
      rw [hHtempo, hT, harit, List.range_succ, List.map_append, List.append_assoc]
      simp
    · rw [Function.iterate_succ_apply', hget]
      simp only [CorpoTermico.registrar_estado, List.length_append]
      rw [hHtemp]
      simp
      omega

lemma simular_multiplos_corpos_eq (s : SimuladorTermico) (tempo_total : ℚ)
    (hdt : ¬(s.delta_t = 0)) :
    s.simular_multiplos_corpos tempo_total = Except.ok { s with
      corpos := ((multiStep s.paramsMulti)^[num_passos tempo_total s.delta_t]
        s.estadoMulti).corpos,
      tempo_atual := ((multiStep s.paramsMulti)^[num_passos tempo_total s.delta_t]
        s.estadoMulti).tempo } := by
  unfold SimuladorTermico.simular_multiplos_corpos
  rw [if_neg hdt]

/-- C10: body construction seeds the time history with exactly `[0]` and
the temperature history with exactly the initial temperature (conjuncts
1–2); `registrar_estado` appends exactly one entry to each history and
never removes or modifies existing entries (conjuncts 3–4); and a
completed coupled simulation of `num_passos` steps appends to each body's
time history exactly the times `tempo_atual + Δt, tempo_atual + 2Δt, …`
— one entry per step, each `Δt` after the previous — keeping the old
entries as an untouched prefix, with both histories of equal length
whenever they start with equal length (conjuncts 5–6). -/
theorem historico_invariante (nome : String) (m ce a T0 t1 : ℚ) (c : CorpoTermico)
    (s s2 : SimuladorTermico) (tempo_total : ℚ) (i : ℕ)
    (hok : s.simular_multiplos_corpos tempo_total = Except.ok s2)
    (hi : i < s.corpos.length)
    (hlen : (s.corpos.getD i corpoPadrao).historico_temperatura.length
      = (s.corpos.getD i corpoPadrao).historico_tempo.length) :
    (CorpoTermico.init nome m ce a T0).historico_tempo = [0] ∧
    (CorpoTermico.init nome m ce a T0).historico_temperatura = [T0] ∧
    (c.registrar_estado t1).historico_tempo = c.historico_tempo ++ [t1] ∧
    (c.registrar_estado t1).historico_temperatura
      = c.historico_temperatura ++ [c.temperatura] ∧
    (s2.corpos.getD i corpoPadrao).historico_tempo
      = (s.corpos.getD i corpoPadrao).historico_tempo
        ++ (List.range (num_passos tempo_total s.delta_t)).map
            (fun j : ℕ => s.tempo_atual + ((j : ℚ) + 1) * s.delta_t) ∧
    (s2.corpos.getD i corpoPadrao).historico_temperatura.length
      = (s2.corpos.getD i corpoPadrao).historico_tempo.length := by
  have hdt : ¬(s.delta_t = 0) := by
    intro h
    rw [SimuladorTermico.simular_multiplos_corpos, if_pos h] at hok
    exact Except.noConfusion hok
  rw [simular_multiplos_corpos_eq s tempo_total hdt] at hok
  have heq := Except.ok.inj hok
  obtain ⟨hL, hT, hHtempo, hHtemp⟩ :=
    iterate_multiStep_invariante s.paramsMulti s.estadoMulti
      (num_passos tempo_total s.delta_t) i hi
  refine ⟨rfl, rfl, rfl, rfl, ?_, ?_⟩
  · rw [← heq]
    exact hHtempo
  · rw [← heq]
    show (((multiStep s.paramsMulti)^[num_passos tempo_total s.delta_t]
        s.estadoMulti).corpos.getD i corpoPadrao).historico_temperatura.length = _
    rw [hHtemp, hHtempo, List.length_append, List.length_map, List.length_range]
    have hsc : s.estadoMulti.corpos = s.corpos := rfl
    rw [hsc]
    omega

/-- A one-body engine (Δt = 1, body at the ambient 25 °C) for the coupled
history witness. -/
def simuladorC10 : SimuladorTermico :=
  (SimuladorTermico.init 1).adicionar_corpo (CorpoTermico.init "c" 2 3 1 25)

/-- The engine state after one coupled step of `simuladorC10`: one entry
appended to each history, elapsed time advanced to 1. -/
def simuladorC10fim : SimuladorTermico :=
  { simuladorC10 with
    corpos := [{ nome := "c", massa := 2, calor_especifico := 3, area_superficie := 1,
                 temperatura := 25, historico_temperatura := [25, 25],
                 historico_tempo := [0, 1] }],
    tempo_atual := 1 }

/-- Witness for C10: one coupled step of the concrete engine appends
exactly the time `tempo_atual + Δt = 1` to the time history and one entry
to the temperature history, keeping the lengths equal. -/
theorem historico_invariante_witness :
    simuladorC10.simular_multiplos_corpos 1 = Except.ok simuladorC10fim ∧
    0 < simuladorC10.corpos.length ∧
    (simuladorC10.corpos.getD 0 corpoPadrao).historico_temperatura.length
      = (simuladorC10.corpos.getD 0 corpoPadrao).historico_tempo.length ∧
    (simuladorC10fim.corpos.getD 0 corpoPadrao).historico_tempo
      = (simuladorC10.corpos.getD 0 corpoPadrao).historico_tempo
        ++ (List.range (num_passos 1 simuladorC10.delta_t)).map
            (fun j : ℕ => simuladorC10.tempo_atual + ((j : ℚ) + 1) * simuladorC10.delta_t) ∧
    (simuladorC10fim.corpos.getD 0 corpoPadrao).historico_temperatura.length
      = (simuladorC10fim.corpos.getD 0 corpoPadrao).historico_tempo.length := by
  have hok : simuladorC10.simular_multiplos_corpos 1 = Except.ok simuladorC10fim := by
    norm_num [SimuladorTermico.simular_multiplos_corpos, num_passos, pyInt,
      simuladorC10, simuladorC10fim, SimuladorTermico.init,
      SimuladorTermico.adicionar_corpo, CorpoTermico.init,
      SimuladorTermico.paramsMulti, SimuladorTermico.estadoMulti,
      SimuladorTermico.coefsConv, multiStep, stepDeltaQ, convFold, condFold,
      pares, convTerm, addAt, taxa_conveccao, calcular_delta_Q, stepCorpos,
      CorpoTermico.registrar_estado, CorpoTermico.capacidade_termica,
      List.range_succ, Function.iterate_one]
  have h := historico_invariante "x" 0 0 0 0 0 corpoPadrao simuladorC10
    simuladorC10fim 1 0 hok (by decide) (by decide)
  exact ⟨hok, by decide, by decide, h.2.2.2.2.1, h.2.2.2.2.2⟩
